import Mathlib

/-!
Verification of the `alexa` request-dispatch library (alexa.go).

Shallow embedding conventions:
* Go `map[string]interface{}` becomes `AttrMap V := String → Option V`, with the
  element type `V` a parameter standing for Go's dynamically typed values.
  Go maps are extensional (key uniqueness, iteration order irrelevant), so the
  entry-by-entry copy `make` + `range` in ProcessRequest is the identity on the
  entries, modelled by `copySessionAttributes`.
* Nil-able Go pointers and nil-able maps become `Option`.
* Errors: Go `error` values are modelled by the inductive `AlexaError`;
  each `errors.New` site in the library gets its own constructor, and
  callback-supplied errors are arbitrary values of the same type (as in Go,
  where callbacks return any `error`).  Errors are propagated verbatim.
* External effects of the Go standard library are threaded explicitly:
  `time.Parse(time.RFC3339, s)` becomes a parameter `parse : String → Option Int`
  (the parsed instant in whole seconds; `none` = parse failure) and
  `time.Now()` becomes a parameter `now : Int`.  The float comparison
  `math.Abs(delta.Seconds()) > float64(timestampTolerance)` is modelled at
  whole-second granularity as `|now - timestamp| > timestampTolerance` on `Int`.
* The package-level variable `timestampTolerance` (process-wide mutable state)
  is threaded explicitly: its current value is an argument of `verifyTimestamp`
  and `ProcessRequest`, `timestampTolerance` below is its initial value (150),
  and `SetTimestampTolerance` returns the new value of the shared state (note
  it ignores its receiver, exactly as the Go method writes the package global).
* The four `RequestHandler` callbacks receive pointers in Go and may mutate the
  session (its attribute map) and the response; they are modelled as functions
  returning the updated `Session × Response` on success.
* `Context` device/platform metadata is never read by the library, only passed
  through to callbacks; only a representative subset of its (unread) fields is
  carried.
-/

namespace AlexaSDK

/-- Go `map[string]interface{}`, extensionally: a finite-support lookup function. -/
def AttrMap (V : Type) : Type := String → Option V

/-- Models `make(map[string]interface{})`: the empty map. -/
def AttrMap.empty (V : Type) : AttrMap V := fun _ => none

/-- Models the Go map write `m[k] = v`. -/
def AttrMap.insert {V : Type} (m : AttrMap V) (k : String) (v : V) : AttrMap V :=
  fun q => if q = k then some v else m q

/-- `const sdkVersion = "1.0"` -/
def sdkVersion : String := "1.0"

/-- `const launchRequestName = "LaunchRequest"` -/
def launchRequestName : String := "LaunchRequest"

/-- `const intentRequestName = "IntentRequest"` -/
def intentRequestName : String := "IntentRequest"

/-- `const sessionEndedRequestName = "SessionEndedRequest"` -/
def sessionEndedRequestName : String := "SessionEndedRequest"

/-- `var timestampTolerance = 150`: the initial value of the package-level
(process-wide) tolerance variable, in seconds. -/
def timestampTolerance : Int := 150

/-- The `error` values of the library.  The first six constructors are the six
`errors.New` sites of alexa.go (`ErrRequestEnvelopeNil` and the inline ones in
`verifyApplicationID` / `verifyTimestamp`); `custom` stands for any other error
value a callback may return. -/
inductive AlexaError where
  | requestEnvelopeNil
  | applicationIDEmpty
  | requestApplicationIDEmpty
  | applicationIDMismatch
  | timestampParse
  | timestampOutOfTolerance
  | custom (message : String)
deriving DecidableEq, Repr

/-- `Session.User` -/
structure SessionUser where
  userID : String
  accessToken : String
deriving DecidableEq, Repr

/-- `Session.Application` -/
structure SessionApplication where
  applicationID : String
deriving DecidableEq, Repr

/-- `Session.Attributes`: the anonymous struct holding the (nil-able)
`String map[string]interface{}` field. -/
structure SessionAttributes (V : Type) where
  string : Option (AttrMap V)

/-- `Session` -/
structure Session (V : Type) where
  new : Bool
  sessionID : String
  attributes : SessionAttributes V
  user : SessionUser
  application : SessionApplication

/-- `IntentSlot` (resolution metadata elided: never read by the library). -/
structure IntentSlot where
  name : String
  confirmationStatus : String
  value : String
deriving DecidableEq, Repr

/-- `Intent` -/
structure Intent where
  name : String
  confirmationStatus : String
  slots : List (String × IntentSlot)
deriving DecidableEq, Repr

/-- `Request` -/
structure Request where
  locale : String
  timestamp : String
  type : String
  requestID : String
  dialogState : String
  intent : Intent
  name : String
deriving DecidableEq, Repr

/-- `Context.System` (nested device/user metadata elided: the library never
reads any of it, it is passed through to the callbacks unchanged). -/
structure ContextSystem where
  apiEndpoint : String
  apiAccessToken : String
deriving DecidableEq, Repr

/-- `Context.AudioPlayer` -/
structure ContextAudioPlayer where
  playerActivity : String
  token : String
  offsetInMilliseconds : Int
deriving DecidableEq, Repr

/-- `Context` -/
structure Context where
  system : ContextSystem
  audioPlayer : ContextAudioPlayer
deriving DecidableEq, Repr

/-- `RequestEnvelope` (the `*Session` and `*Request` pointers are assumed
populated, as the library dereferences them unconditionally; the nil-able
envelope pointer itself is `Option (RequestEnvelope V)` at the call sites). -/
structure RequestEnvelope (V : Type) where
  version : String
  session : Session V
  request : Request
  context : Option Context

/-- `OutputSpeech`: unset Go string fields are the zero value `""`. -/
structure OutputSpeech where
  type : String
  text : String
  ssml : String
deriving DecidableEq, Repr

/-- `Image` -/
structure Image where
  smallImageURL : String
  largeImageURL : String
deriving DecidableEq, Repr

/-- `Card` -/
structure Card where
  type : String
  title : String
  content : String
  text : String
  image : Option Image
deriving DecidableEq, Repr

/-- `Reprompt` -/
structure Reprompt where
  outputSpeech : Option OutputSpeech
deriving DecidableEq, Repr

/-- `Stream` -/
structure Stream where
  token : String
  url : String
  offsetInMilliseconds : Int
deriving DecidableEq, Repr

/-- `AudioItem` -/
structure AudioItem where
  stream : Stream
deriving DecidableEq, Repr

/-- `AudioPlayerDirective` -/
structure AudioPlayerDirective where
  type : String
  playBehavior : String
  audioItem : Option AudioItem
deriving DecidableEq, Repr

/-- `DialogDirective` -/
structure DialogDirective where
  type : String
  slotToElicit : String
  slotToConfirm : String
  updatedIntent : Option Intent
deriving DecidableEq, Repr

/-- The values actually stored in the `Directives []interface{}` slice: the two
`Add*` methods append exactly these two shapes. -/
inductive Directive where
  | audioPlayer (d : AudioPlayerDirective)
  | dialog (d : DialogDirective)
deriving DecidableEq, Repr

/-- `Response` -/
structure Response where
  outputSpeech : Option OutputSpeech
  card : Option Card
  reprompt : Option Reprompt
  directives : List Directive
  shouldSessionEnd : Bool
deriving DecidableEq, Repr

/-- `ResponseEnvelope` (its `Response` pointer is always assigned by
`ProcessRequest` before the envelope is returned, so it is carried plainly). -/
structure ResponseEnvelope (V : Type) where
  version : String
  sessionAttributes : AttrMap V
  response : Response

/-- The type of one `RequestHandler` callback: Go callbacks receive pointers to
the request, session, context and response and may mutate the session and the
response; success returns the updated pair. -/
def Callback (V : Type) : Type :=
  Request → Session V → Option Context → Response → Except AlexaError (Session V × Response)

/-- `RequestHandler` -/
structure RequestHandler (V : Type) where
  onSessionStarted : Callback V
  onLaunch : Callback V
  onIntent : Callback V
  onSessionEnded : Callback V

/-- `Alexa` -/
structure Alexa (V : Type) where
  applicationID : String
  requestHandler : RequestHandler V
  ignoreApplicationID : Bool
  ignoreTimestamp : Bool

/-- `func (alexa *Alexa) verifyApplicationID(request *RequestEnvelope) error` -/
def verifyApplicationID {V : Type} (alexa : Alexa V) (request : Option (RequestEnvelope V)) :
    Except AlexaError Unit :=
  match request with
  | none => Except.error AlexaError.requestEnvelopeNil
  | some request =>
    let appID := alexa.applicationID
    let requestAppID := request.session.application.applicationID
    if appID = "" then Except.error AlexaError.applicationIDEmpty
    else if requestAppID = "" then Except.error AlexaError.requestApplicationIDEmpty
    else if appID ≠ requestAppID then Except.error AlexaError.applicationIDMismatch
    else Except.ok ()

/-- `func (alexa *Alexa) verifyTimestamp(request *RequestEnvelope) error`.
`timestampTolerance` is the current value of the package-level variable;
`parse` models `time.Parse(time.RFC3339, ·)` and `now` models `time.Now()`
(both in whole seconds since a fixed epoch).  The receiver is unused, exactly
as in the Go method body. -/
def verifyTimestamp {V : Type} (alexa : Alexa V) (timestampTolerance : Int)
    (parse : String → Option Int) (now : Int) (request : Option (RequestEnvelope V)) :
    Except AlexaError Unit :=
  match request with
  | none => Except.error AlexaError.requestEnvelopeNil
  | some request =>
    match parse request.request.timestamp with
    | none => Except.error AlexaError.timestampParse
    | some timestamp =>
      let deltaSecsAbs : Int := |now - timestamp|
      if deltaSecsAbs > timestampTolerance then Except.error AlexaError.timestampOutOfTolerance
      else Except.ok ()

/-- `func (alexa *Alexa) SetTimestampTolerance(seconds int)`: writes the
package-level variable.  The model returns the new value of that process-wide
state; note the receiver is ignored (the Go method body is
`timestampTolerance = seconds`, touching no field of `alexa`). -/
def SetTimestampTolerance {V : Type} (alexa : Alexa V) (seconds : Int) : Int :=
  seconds

/-- The response `ProcessRequest` prepares before any callback runs:
`&Response{}` (Go zero values) followed by `ShouldSessionEnd = true`. -/
def defaultResponse : Response :=
  { outputSpeech := none, card := none, reprompt := none, directives := []
    shouldSessionEnd := true }

/-- The block `if session.Attributes.String == nil { session.Attributes.String =
make(map[string]interface{}) }` of ProcessRequest. -/
def prepareSessionAttributes {V : Type} (session : Session V) : Session V :=
  match session.attributes.string with
  | none => { session with attributes := { string := some (AttrMap.empty V) } }
  | some _ => session

/-- The final block of ProcessRequest: `make` a fresh map and `range`-copy every
entry of the session's attribute map into it (a nil map yields the empty map);
extensionally this is the source map itself. -/
def copySessionAttributes {V : Type} (attrs : Option (AttrMap V)) : AttrMap V :=
  match attrs with
  | none => AttrMap.empty V
  | some m => m

/-- The `if session.New { ... OnSessionStarted ... }` block of ProcessRequest. -/
def runSessionStarted {V : Type} (alexa : Alexa V) (request : Request) (session : Session V)
    (context : Option Context) (response : Response) : Except AlexaError (Session V × Response) :=
  if session.new then alexa.requestHandler.onSessionStarted request session context response
  else Except.ok (session, response)

/-- The `switch requestEnv.Request.Type` block of ProcessRequest: exactly one of
the three named cases fires, or none (the Go switch has no default clause). -/
def dispatchRequestType {V : Type} (alexa : Alexa V) (request : Request) (session : Session V)
    (context : Option Context) (response : Response) : Except AlexaError (Session V × Response) :=
  if request.type = launchRequestName then
    alexa.requestHandler.onLaunch request session context response
  else if request.type = intentRequestName then
    alexa.requestHandler.onIntent request session context response
  else if request.type = sessionEndedRequestName then
    alexa.requestHandler.onSessionEnded request session context response
  else Except.ok (session, response)

/-- `func (alexa *Alexa) ProcessRequest(ctx context.Context, requestEnv
*RequestEnvelope) (*ResponseEnvelope, error)`.  The Go `(nil, err)` return is
`Except.error err`; the opaque `ctx` is never inspected by the library and is
elided.  `timestampTolerance`, `parse`, `now` are the explicitly threaded
process state and clock (see the module comment). -/
def ProcessRequest {V : Type} (alexa : Alexa V) (timestampTolerance : Int)
    (parse : String → Option Int) (now : Int) (requestEnv : Option (RequestEnvelope V)) :
    Except AlexaError (ResponseEnvelope V) :=
  match requestEnv with
  | none => Except.error AlexaError.requestEnvelopeNil
  | some env =>
    match (if alexa.ignoreApplicationID then Except.ok ()
           else verifyApplicationID alexa (some env)) with
    | Except.error e => Except.error e
    | Except.ok _ =>
      match (if alexa.ignoreTimestamp then Except.ok ()
             else verifyTimestamp alexa timestampTolerance parse now (some env)) with
      | Except.error e => Except.error e
      | Except.ok _ =>
        let request := env.request
        let session := prepareSessionAttributes env.session
        let context := env.context
        match runSessionStarted alexa request session context defaultResponse with
        | Except.error e => Except.error e
        | Except.ok (session, response) =>
          match dispatchRequestType alexa request session context response with
          | Except.error e => Except.error e
          | Except.ok (session, response) =>
            Except.ok { version := sdkVersion
                        sessionAttributes := copySessionAttributes session.attributes.string
                        response := response }

/-- `func (r *Response) SetSimpleCard(title string, content string)` -/
def Response.SetSimpleCard (r : Response) (title : String) (content : String) : Response :=
  { r with card := some { type := "Simple", title := title, content := content
                          text := "", image := none } }

/-- `func (r *Response) SetStandardCard(...)` -/
def Response.SetStandardCard (r : Response) (title : String) (text : String)
    (smallImageURL : String) (largeImageURL : String) : Response :=
  { r with card := some { type := "Standard", title := title, content := "", text := text
                          image := some { smallImageURL := smallImageURL
                                          largeImageURL := largeImageURL } } }

/-- `func (r *Response) SetLinkAccountCard()` -/
def Response.SetLinkAccountCard (r : Response) : Response :=
  { r with card := some { type := "LinkAccount", title := "", content := ""
                          text := "", image := none } }

/-- `func (r *Response) SetOutputText(text string)`: assigns a fresh
`&OutputSpeech{Type: "PlainText", Text: text}` (its SSML field is the zero
value `""`). -/
def Response.SetOutputText (r : Response) (text : String) : Response :=
  { r with outputSpeech := some { type := "PlainText", text := text, ssml := "" } }

/-- `func (r *Response) SetOutputSSML(ssml string)`: assigns a fresh
`&OutputSpeech{Type: "SSML", SSML: ssml}` (its Text field is the zero value
`""`). -/
def Response.SetOutputSSML (r : Response) (ssml : String) : Response :=
  { r with outputSpeech := some { type := "SSML", text := "", ssml := ssml } }

/-- `func (r *Response) SetRepromptText(text string)` -/
def Response.SetRepromptText (r : Response) (text : String) : Response :=
  let reprompt := match r.reprompt with
    | none => ({ outputSpeech := none } : Reprompt)
    | some reprompt => reprompt
  { r with reprompt := some { reprompt with
      outputSpeech := some { type := "PlainText", text := text, ssml := "" } } }

/-- `func (r *Response) SetRepromptSSML(ssml string)` -/
def Response.SetRepromptSSML (r : Response) (ssml : String) : Response :=
  let reprompt := match r.reprompt with
    | none => ({ outputSpeech := none } : Reprompt)
    | some reprompt => reprompt
  { r with reprompt := some { reprompt with
      outputSpeech := some { type := "SSML", text := "", ssml := ssml } } }

/-- `func (r *Response) AddAudioPlayer(...)` -/
def Response.AddAudioPlayer (r : Response) (playerType : String) (playBehavior : String)
    (streamToken : String) (url : String) (offsetInMilliseconds : Int) : Response :=
  { r with directives := r.directives ++
      [Directive.audioPlayer
        { type := playerType, playBehavior := playBehavior
          audioItem := some { stream := { token := streamToken, url := url
                                          offsetInMilliseconds := offsetInMilliseconds } } }] }

/-- `func (r *Response) AddDialogDirective(...)` -/
def Response.AddDialogDirective (r : Response) (dialogType : String) (slotToElicit : String)
    (slotToConfirm : String) (intent : Option Intent) : Response :=
  { r with directives := r.directives ++
      [Directive.dialog
        { type := dialogType, slotToElicit := slotToElicit
          slotToConfirm := slotToConfirm, updatedIntent := intent }] }

/-- Both validation checks pass (each one either by its ignore flag or on its
own merits): exactly the condition under which ProcessRequest reaches the
callback pipeline. -/
def ChecksPass {V : Type} (alexa : Alexa V) (timestampTolerance : Int)
    (parse : String → Option Int) (now : Int) (env : RequestEnvelope V) : Prop :=
  (alexa.ignoreApplicationID = true ∨ verifyApplicationID alexa (some env) = Except.ok ())
  ∧ (alexa.ignoreTimestamp = true
     ∨ verifyTimestamp alexa timestampTolerance parse now (some env) = Except.ok ())

/-- A callback that records its invocation by writing the marker key into the
session attribute map (what a Go callback does with
`session.Attributes.String[marker] = "called"`) and leaves the response alone. -/
def recordCall (marker : String) : Callback String :=
  fun _ session _ response =>
    Except.ok
      ({ session with attributes :=
          { string := some (AttrMap.insert
              (match session.attributes.string with
               | none => AttrMap.empty String
               | some m => m) marker "called") } }, response)

/-- An observing `RequestHandler`: each lifecycle callback records its own
invocation in the session attributes and changes nothing else, so the returned
envelope's session attributes reveal exactly which callbacks ran. -/
def spyHandler : RequestHandler String :=
  { onSessionStarted := recordCall "sessionStarted"
    onLaunch := recordCall "launch"
    onIntent := recordCall "intent"
    onSessionEnded := recordCall "sessionEnded" }

/-- Helper: preparing the attribute map leaves every other session field (in
particular the novelty flag) unchanged. -/
theorem prepareSessionAttributes_new {V : Type} (s : Session V) :
    (prepareSessionAttributes s).new = s.new := by
  unfold prepareSessionAttributes
  cases h : s.attributes.string <;> simp [h]

/-- Helper: once both checks pass, ProcessRequest is the callback pipeline on
the prepared session and default response, finalized by the attribute copy. -/
theorem processRequest_of_checksPass {V : Type} (alexa : Alexa V) (tol : Int)
    (parse : String → Option Int) (now : Int) (env : RequestEnvelope V)
    (h : ChecksPass alexa tol parse now env) :
    ProcessRequest alexa tol parse now (some env) =
      match runSessionStarted alexa env.request (prepareSessionAttributes env.session)
          env.context defaultResponse with
      | Except.error e => Except.error e
      | Except.ok (session, response) =>
        match dispatchRequestType alexa env.request session env.context response with
        | Except.error e => Except.error e
        | Except.ok (session, response) =>
          Except.ok { version := sdkVersion
                      sessionAttributes := copySessionAttributes session.attributes.string
                      response := response } := by
  obtain ⟨h1, h2⟩ := h
  have e1 : (if alexa.ignoreApplicationID then Except.ok ()
             else verifyApplicationID alexa (some env)) = (Except.ok () : Except AlexaError Unit) := by
    rcases h1 with h1 | h1
    · simp [h1]
    · by_cases hf : alexa.ignoreApplicationID <;> simp [hf, h1]
  have e2 : (if alexa.ignoreTimestamp then Except.ok ()
             else verifyTimestamp alexa tol parse now (some env))
              = (Except.ok () : Except AlexaError Unit) := by
    rcases h2 with h2 | h2
    · simp [h2]
    · by_cases hf : alexa.ignoreTimestamp <;> simp [hf, h2]
  simp only [ProcessRequest, e1, e2]

/-- Concrete fixture: the session of the test request of alexa_test.go. -/
def sampleSession : Session String :=
  { new := false
    sessionID := "amzn1.echo-api.session.123"
    attributes := { string := none }
    user := { userID := "amzn1.ask.account.123", accessToken := "" }
    application := { applicationID := "amzn1.ask.skill.ABC123" } }

/-- Concrete fixture: the request of the test request of alexa_test.go. -/
def sampleRequest : Request :=
  { locale := "en-US", timestamp := "2016-10-27T21:06:28Z", type := "IntentRequest"
    requestID := "amzn1.echo-api.request.xyz789", dialogState := ""
    intent := { name := "RecipeIntent", confirmationStatus := "", slots := [] }
    name := "" }

/-- Concrete fixture: a full request envelope. -/
def sampleEnv : RequestEnvelope String :=
  { version := "1.0", session := sampleSession, request := sampleRequest, context := none }

/-- A callback that succeeds and changes nothing (the `emptyRequestHandler` of
the tests). -/
def passCallback : Callback String := fun _ session _ response => Except.ok (session, response)

/-- A handler whose four callbacks all succeed and change nothing. -/
def passHandler : RequestHandler String :=
  { onSessionStarted := passCallback, onLaunch := passCallback
    onIntent := passCallback, onSessionEnded := passCallback }

/-- A concrete stand-in for `time.Parse(time.RFC3339, ·)`: knows the fixture's
timestamp (as instant 1000), rejects everything else as malformed. -/
def sampleParse : String → Option Int :=
  fun s => if s = "2016-10-27T21:06:28Z" then some 1000 else none

/-- Concrete fixture: an `Alexa` configured like the tests, both checks on. -/
def strictAlexa : Alexa String :=
  { applicationID := "amzn1.ask.skill.ABC123", requestHandler := passHandler
    ignoreApplicationID := false, ignoreTimestamp := false }

/-- Claim C9: setting output speech as plain text and as SSML are mutually
exclusive, last-call-wins operations: SetOutputText yields a PlainText
OutputSpeech with the given text and empty SSML, a subsequent SetOutputSSML
replaces the OutputSpeech entirely (so SetOutputText then SetOutputSSML equals
SetOutputSSML alone), and SetOutputSSML yields an SSML OutputSpeech with no
leftover text. -/
theorem claim_C9 (r : Response) (s m : String) :
    (r.SetOutputText s).outputSpeech = some { type := "PlainText", text := s, ssml := "" }
    ∧ (r.SetOutputText s).SetOutputSSML m = r.SetOutputSSML m
    ∧ (r.SetOutputSSML m).outputSpeech = some { type := "SSML", text := "", ssml := m } :=
  ⟨rfl, rfl, rfl⟩

/-- Claim C8: the timestamp tolerance is process-wide mutable state, not
per-instance: `SetTimestampTolerance` ignores its receiver (any instance writes
the same shared value), and a `verifyTimestamp` call on a different instance B
after `A.SetTimestampTolerance t` is governed by `t`, not by the initial
process-wide default `timestampTolerance = 150`. -/
theorem claim_C8 {V : Type} (A B : Alexa V) (t : Int) (parse : String → Option Int)
    (now : Int) (r : RequestEnvelope V) (ts : Int)
    (hparse : parse r.request.timestamp = some ts) :
    timestampTolerance = 150
    ∧ (∀ C : Alexa V, SetTimestampTolerance C t = t)
    ∧ verifyTimestamp B (SetTimestampTolerance A t) parse now (some r)
        = (if |now - ts| > t then Except.error AlexaError.timestampOutOfTolerance
           else Except.ok ()) := by
  refine ⟨rfl, fun _ => rfl, ?_⟩
  simp only [verifyTimestamp, SetTimestampTolerance, hparse]

/-- Witness for C8 at a concrete input: instance A sets the shared tolerance to
10 and instance B's next check is governed by 10 (here the skew is 11 seconds,
an error), even though B never changed its own configuration. -/
theorem claim_C8_witness :
    timestampTolerance = 150
    ∧ (∀ C : Alexa String, SetTimestampTolerance C 10 = 10)
    ∧ verifyTimestamp strictAlexa (SetTimestampTolerance strictAlexa 10) sampleParse 1011
        (some sampleEnv)
        = (if |(1011 : Int) - 1000| > 10 then Except.error AlexaError.timestampOutOfTolerance
           else Except.ok ()) :=
  claim_C8 strictAlexa strictAlexa 10 sampleParse 1011 sampleEnv 1000 rfl

/-- Claim C3: verifyTimestamp returns a parse error exactly when the RFC3339
parse fails; otherwise it succeeds if and only if the absolute difference in
seconds between now and the parsed timestamp is at most the configured
tolerance, and errors if and only if that difference strictly exceeds it (so
the boundary case equal to the tolerance succeeds and one second over fails);
past and future skew are treated symmetrically (mirroring the parsed timestamp
around now leaves the verdict unchanged); the default tolerance is 150. -/
theorem claim_C3 {V : Type} (alexa : Alexa V) (tol : Int) (parse : String → Option Int)
    (now : Int) (r : RequestEnvelope V) :
    timestampTolerance = 150
    ∧ (parse r.request.timestamp = none →
        verifyTimestamp alexa tol parse now (some r) = Except.error AlexaError.timestampParse)
    ∧ (∀ t, parse r.request.timestamp = some t →
        (verifyTimestamp alexa tol parse now (some r) = Except.ok () ↔ |now - t| ≤ tol)
        ∧ (verifyTimestamp alexa tol parse now (some r)
            = Except.error AlexaError.timestampOutOfTolerance ↔ tol < |now - t|)
        ∧ verifyTimestamp alexa tol parse now (some r)
            = verifyTimestamp alexa tol (fun s => (parse s).map (fun u => 2 * now - u)) now
                (some r)) := by
  refine ⟨rfl, ?_, ?_⟩
  · intro hp
    simp only [verifyTimestamp, hp]
  · intro t hp
    have hmirror : |now - (2 * now - t)| = |now - t| := by
      rw [show now - (2 * now - t) = -(now - t) by ring, abs_neg]
    refine ⟨?_, ?_, ?_⟩
    · simp only [verifyTimestamp, hp]
      by_cases hgt : |now - t| > tol
      · simp [hgt]
      · simp [hgt]
        omega
    · simp only [verifyTimestamp, hp]
      by_cases hgt : |now - t| > tol
      · simp [hgt]
      · simp [hgt]
    · simp only [verifyTimestamp, hp, Option.map_some']
      rw [hmirror]

/-- The callback `cb` never returns an error. -/
def AlwaysOk {V : Type} (cb : Callback V) : Prop :=
  ∀ request session context response, ∃ out,
    cb request session context response = Except.ok out

/-- Helper: under callbacks that never fail, the type dispatch never fails
(the unrecognized-type branch cannot fail at all). -/
theorem dispatchRequestType_alwaysOk {V : Type} (alexa : Alexa V) (request : Request)
    (s1 : Session V) (context : Option Context) (r1 : Response)
    (h2 : AlwaysOk alexa.requestHandler.onLaunch)
    (h3 : AlwaysOk alexa.requestHandler.onIntent)
    (h4 : AlwaysOk alexa.requestHandler.onSessionEnded) :
    ∃ out, dispatchRequestType alexa request s1 context r1 = Except.ok out := by
  unfold dispatchRequestType
  by_cases hL : request.type = launchRequestName
  · simp only [hL, if_true]
    exact h2 request s1 context r1
  · by_cases hI : request.type = intentRequestName
    · simp only [hL, hI, if_false, if_true]
      exact h3 request s1 context r1
    · by_cases hE : request.type = sessionEndedRequestName
      · simp only [hL, hI, hE, if_false, if_true]
        exact h4 request s1 context r1
      · simp only [hL, hI, hE, if_false]
        exact ⟨(s1, r1), rfl⟩

/-- Claim C2: verifyApplicationID errors exactly when the envelope is nil, the
configured application ID is empty, the request's application ID is empty, or
the two IDs differ as case-sensitive strings; and with the IgnoreApplicationID
flag set the identity check always passes regardless of these conditions:
ProcessRequest's outcome no longer depends on the configured application ID,
and dispatch succeeds (timestamp check and callbacks permitting) for every
envelope — in particular when the configured ID is empty, the request's
embedded ID is empty, or the two differ, the very conditions that would
otherwise fail the check.  (A nil envelope is stopped by ProcessRequest's
separate nil guard before either check, flag or no flag, so it does not
witness an identity failure.) -/
theorem claim_C2 {V : Type} (alexa : Alexa V) (env : Option (RequestEnvelope V)) :
    ((∃ e, verifyApplicationID alexa env = Except.error e) ↔
      env = none
      ∨ ∃ r, env = some r
          ∧ (alexa.applicationID = "" ∨ r.session.application.applicationID = ""
             ∨ alexa.applicationID ≠ r.session.application.applicationID))
    ∧ (alexa.ignoreApplicationID = true →
        ∀ (tol : Int) (parse : String → Option Int) (now : Int) (appID : String),
          ProcessRequest { alexa with applicationID := appID } tol parse now env
            = ProcessRequest alexa tol parse now env)
    ∧ (alexa.ignoreApplicationID = true →
        ∀ (tol : Int) (parse : String → Option Int) (now : Int) (r : RequestEnvelope V),
          (alexa.ignoreTimestamp = true
            ∨ verifyTimestamp alexa tol parse now (some r) = Except.ok ()) →
          AlwaysOk alexa.requestHandler.onSessionStarted →
          AlwaysOk alexa.requestHandler.onLaunch →
          AlwaysOk alexa.requestHandler.onIntent →
          AlwaysOk alexa.requestHandler.onSessionEnded →
          ∃ re, ProcessRequest alexa tol parse now (some r) = Except.ok re) := by
  refine ⟨?_, ?_, ?_⟩
  · cases env with
    | none => simp [verifyApplicationID]
    | some r =>
      simp only [verifyApplicationID]
      by_cases h1 : alexa.applicationID = ""
      · simp [h1]
      · by_cases h2 : r.session.application.applicationID = ""
        · simp [h1, h2]
        · by_cases h3 : alexa.applicationID = r.session.application.applicationID
          · simp [h1, h2, h3]
          · simp [h1, h2, h3]
  · intro hig tol parse now appID
    cases env with
    | none => rfl
    | some e =>
      simp only [ProcessRequest, runSessionStarted, dispatchRequestType, verifyTimestamp, hig]
      simp
  · intro hig tol parse now r hts h1 h2 h3 h4
    have hchar := processRequest_of_checksPass alexa tol parse now r ⟨Or.inl hig, hts⟩
    have hstarted : ∃ out,
        runSessionStarted alexa r.request (prepareSessionAttributes r.session) r.context
          defaultResponse = Except.ok out := by
      unfold runSessionStarted
      cases hn : (prepareSessionAttributes r.session).new
      · exact ⟨(prepareSessionAttributes r.session, defaultResponse), by simp [hn]⟩
      · obtain ⟨out, hcb⟩ :=
          h1 r.request (prepareSessionAttributes r.session) r.context defaultResponse
        exact ⟨out, by simp [hn, hcb]⟩
    obtain ⟨⟨s1, r1⟩, hstart⟩ := hstarted
    obtain ⟨⟨s2, r2⟩, hdisp⟩ := dispatchRequestType_alwaysOk alexa r.request s1 r.context r1 h2 h3 h4
    rw [hchar, hstart]
    dsimp only
    rw [hdisp]
    exact ⟨_, rfl⟩

/-- Claim C1: ProcessRequest runs the application-ID check (unless
IgnoreApplicationID) and then the timestamp check (unless IgnoreTimestamp)
before invoking any callback; if either check fails it returns that check's
error with no response envelope (`Except.error e` is Go's `(nil, err)`).  The
handler inside `alexa` is universally quantified, so the failing result is the
same whatever the callbacks would do: no callback is invoked.  The first
disjunct (application-ID failure) makes no assumption on the timestamp check,
so the identity error wins when both would fail: the checks run in that
order. -/
theorem claim_C1 {V : Type} (alexa : Alexa V) (tol : Int) (parse : String → Option Int)
    (now : Int) (env : RequestEnvelope V) (e : AlexaError)
    (hfail :
      (alexa.ignoreApplicationID = false
        ∧ verifyApplicationID alexa (some env) = Except.error e)
      ∨ ((alexa.ignoreApplicationID = true ∨ verifyApplicationID alexa (some env) = Except.ok ())
         ∧ alexa.ignoreTimestamp = false
         ∧ verifyTimestamp alexa tol parse now (some env) = Except.error e)) :
    ProcessRequest alexa tol parse now (some env) = Except.error e := by
  rcases hfail with ⟨hflag, herr⟩ | ⟨hok, hflag, herr⟩
  · simp only [ProcessRequest, hflag]
    simp [herr]
  · have e1 : (if alexa.ignoreApplicationID then Except.ok ()
               else verifyApplicationID alexa (some env))
        = (Except.ok () : Except AlexaError Unit) := by
      rcases hok with hok | hok
      · simp [hok]
      · by_cases hf : alexa.ignoreApplicationID <;> simp [hf, hok]
    simp only [ProcessRequest, e1, hflag]
    simp [herr]

/-- Witness for C1 at a concrete input: an empty configured application ID with
the identity check enabled makes ProcessRequest return the identity error and
no response. -/
theorem claim_C1_witness :
    ProcessRequest { strictAlexa with applicationID := "" } 150 sampleParse 1000 (some sampleEnv)
      = Except.error AlexaError.applicationIDEmpty :=
  claim_C1 { strictAlexa with applicationID := "" } 150 sampleParse 1000 sampleEnv
    AlexaError.applicationIDEmpty (Or.inl ⟨rfl, rfl⟩)

/-- Claim C5: once validation passes, any invoked callback returning an error
makes ProcessRequest return that same error with no response envelope and stops
the pipeline.  Part one: if the session is new and the session-started callback
errors, that error is returned whatever the launch/intent/session-ended
callbacks (held inside the universally quantified `alexa`) would have done —
they are never invoked.  Part two: if the session-started stage succeeded with
`(s1, r1)`, an error from the callback selected by the request type is returned
verbatim. -/
theorem claim_C5 {V : Type} (alexa : Alexa V) (tol : Int) (parse : String → Option Int)
    (now : Int) (env : RequestEnvelope V) (e : AlexaError)
    (hpass : ChecksPass alexa tol parse now env) :
    (env.session.new = true →
      alexa.requestHandler.onSessionStarted env.request (prepareSessionAttributes env.session)
          env.context defaultResponse = Except.error e →
      ProcessRequest alexa tol parse now (some env) = Except.error e)
    ∧ (∀ (s1 : Session V) (r1 : Response),
        runSessionStarted alexa env.request (prepareSessionAttributes env.session) env.context
            defaultResponse = Except.ok (s1, r1) →
        ((env.request.type = launchRequestName →
            alexa.requestHandler.onLaunch env.request s1 env.context r1 = Except.error e →
            ProcessRequest alexa tol parse now (some env) = Except.error e)
         ∧ (env.request.type = intentRequestName →
            alexa.requestHandler.onIntent env.request s1 env.context r1 = Except.error e →
            ProcessRequest alexa tol parse now (some env) = Except.error e)
         ∧ (env.request.type = sessionEndedRequestName →
            alexa.requestHandler.onSessionEnded env.request s1 env.context r1 = Except.error e →
            ProcessRequest alexa tol parse now (some env) = Except.error e))) := by
  have hchar := processRequest_of_checksPass alexa tol parse now env hpass
  refine ⟨?_, ?_⟩
  · intro hnew herr
    rw [hchar]
    simp [runSessionStarted, prepareSessionAttributes_new, hnew, herr]
  · intro s1 r1 hstart
    refine ⟨?_, ?_, ?_⟩
    · intro htype herr
      rw [hchar, hstart]
      simp [dispatchRequestType, htype, herr, launchRequestName, intentRequestName,
        sessionEndedRequestName]
    · intro htype herr
      rw [hchar, hstart]
      simp [dispatchRequestType, htype, herr, launchRequestName, intentRequestName,
        sessionEndedRequestName]
    · intro htype herr
      rw [hchar, hstart]
      simp [dispatchRequestType, htype, herr, launchRequestName, intentRequestName,
        sessionEndedRequestName]

/-- A session with the novelty flag set, for exercising the session-started
path. -/
def launchSession : Session String := { sampleSession with new := true }

/-- The fixture request retyped as a launch request. -/
def launchRequest : Request := { sampleRequest with type := "LaunchRequest" }

/-- A new-session launch envelope. -/
def launchEnv : RequestEnvelope String :=
  { version := "1.0", session := launchSession, request := launchRequest, context := none }

/-- A handler whose session-started callback fails. -/
def failingStartHandler : RequestHandler String :=
  { onSessionStarted := fun _ _ _ _ => Except.error (AlexaError.custom "session start failed")
    onLaunch := passCallback, onIntent := passCallback, onSessionEnded := passCallback }

/-- The strict fixture configuration with the failing-start handler. -/
def failStartAlexa : Alexa String := { strictAlexa with requestHandler := failingStartHandler }

/-- Witness for C5 at a concrete input: a new-session launch request whose
session-started callback fails; ProcessRequest surfaces exactly that error and
the launch callback's behavior is irrelevant. -/
theorem claim_C5_witness :
    ProcessRequest failStartAlexa 150 sampleParse 1000 (some launchEnv)
      = Except.error (AlexaError.custom "session start failed") :=
  (claim_C5 failStartAlexa 150 sampleParse 1000 launchEnv
      (AlexaError.custom "session start failed") ⟨Or.inr rfl, Or.inr rfl⟩).1 rfl rfl

/-- The strict fixture configuration carrying the observing handler. -/
def spyAlexa : Alexa String := { strictAlexa with requestHandler := spyHandler }

/-- Claim C4: for every request that passes validation (run here with the
observing handler, whose only effect is to record each callback invocation
under a marker key in the session attributes), the session-started callback is
invoked if and only if the session is new; exactly the callback matching the
request type (launch / intent / session-ended) is invoked, and for any other
request type no lifecycle callback is invoked yet dispatch still succeeds, with
the response left at its prepared defaults. -/
theorem claim_C4 (alexa : Alexa String) (tol : Int) (parse : String → Option Int)
    (now : Int) (env : RequestEnvelope String)
    (hspy : alexa.requestHandler = spyHandler)
    (hpass : ChecksPass alexa tol parse now env)
    (hattrs : env.session.attributes.string = none) :
    ∃ re, ProcessRequest alexa tol parse now (some env) = Except.ok re
      ∧ re.sessionAttributes "sessionStarted"
          = (if env.session.new then some "called" else none)
      ∧ re.sessionAttributes "launch"
          = (if env.request.type = launchRequestName then some "called" else none)
      ∧ re.sessionAttributes "intent"
          = (if env.request.type = intentRequestName then some "called" else none)
      ∧ re.sessionAttributes "sessionEnded"
          = (if env.request.type = sessionEndedRequestName then some "called" else none)
      ∧ (env.request.type ≠ launchRequestName → env.request.type ≠ intentRequestName →
          env.request.type ≠ sessionEndedRequestName → re.response = defaultResponse) := by
  have hchar := processRequest_of_checksPass alexa tol parse now env hpass
  have hprep : prepareSessionAttributes env.session
      = { env.session with attributes := { string := some (AttrMap.empty String) } } := by
    unfold prepareSessionAttributes
    rw [hattrs]
  rw [hchar, hprep]
  simp only [launchRequestName, intentRequestName, sessionEndedRequestName,
    dispatchRequestType, runSessionStarted]
  by_cases hL : env.request.type = "LaunchRequest"
  · have hI : env.request.type ≠ "IntentRequest" := by rw [hL]; decide
    have hE : env.request.type ≠ "SessionEndedRequest" := by rw [hL]; decide
    cases hn : env.session.new <;>
      simp [hspy, spyHandler, recordCall, hn, hL, hI, hE,
        AttrMap.insert, AttrMap.empty, copySessionAttributes]
  · by_cases hI : env.request.type = "IntentRequest"
    · have hE : env.request.type ≠ "SessionEndedRequest" := by rw [hI]; decide
      cases hn : env.session.new <;>
        simp [hspy, spyHandler, recordCall, hn, hL, hI, hE,
          AttrMap.insert, AttrMap.empty, copySessionAttributes]
    · by_cases hE : env.request.type = "SessionEndedRequest"
      · cases hn : env.session.new <;>
          simp [hspy, spyHandler, recordCall, hn, hL, hI, hE,
            AttrMap.insert, AttrMap.empty, copySessionAttributes]
      · cases hn : env.session.new <;>
          simp [hspy, spyHandler, recordCall, hn, hL, hI, hE,
            AttrMap.insert, AttrMap.empty, copySessionAttributes]

/-- Witness for C4 at a concrete input: a new-session launch request dispatched
with the observing handler; exactly the session-started and launch markers are
present. -/
theorem claim_C4_witness :
    ∃ re, ProcessRequest spyAlexa 150 sampleParse 1000 (some launchEnv) = Except.ok re
      ∧ re.sessionAttributes "sessionStarted" = some "called"
      ∧ re.sessionAttributes "launch" = some "called"
      ∧ re.sessionAttributes "intent" = none
      ∧ re.sessionAttributes "sessionEnded" = none
      ∧ (launchEnv.request.type ≠ launchRequestName → launchEnv.request.type ≠ intentRequestName →
          launchEnv.request.type ≠ sessionEndedRequestName → re.response = defaultResponse) :=
  claim_C4 spyAlexa 150 sampleParse 1000 launchEnv rfl ⟨Or.inr rfl, Or.inr rfl⟩ rfl

/-- Claim C6: on every successful dispatch, every key/value pair of the session
attribute map as the callbacks left it (here `(s2, r2)` is the outcome of the
session-started stage followed by the type dispatch, over an arbitrary handler)
is present, by the same key and value, in the returned envelope's
session-attributes map. -/
theorem claim_C6 {V : Type} (alexa : Alexa V) (tol : Int) (parse : String → Option Int)
    (now : Int) (env : RequestEnvelope V) (s1 s2 : Session V) (r1 r2 : Response) (m2 : AttrMap V)
    (hpass : ChecksPass alexa tol parse now env)
    (hstart : runSessionStarted alexa env.request (prepareSessionAttributes env.session)
        env.context defaultResponse = Except.ok (s1, r1))
    (hdisp : dispatchRequestType alexa env.request s1 env.context r1 = Except.ok (s2, r2))
    (hm : s2.attributes.string = some m2) :
    ∃ re, ProcessRequest alexa tol parse now (some env) = Except.ok re
      ∧ ∀ k v, m2 k = some v → re.sessionAttributes k = some v := by
  have hchar := processRequest_of_checksPass alexa tol parse now env hpass
  rw [hchar, hstart]
  dsimp only
  rw [hdisp]
  refine ⟨_, rfl, ?_⟩
  intro k v hkv
  simpa [copySessionAttributes, hm] using hkv

/-- A callback that stores the attribute `myNewAttr = "Set123"` in the session
(the mutation exercised by `TestAlexaSessionAttributesSet`). -/
def intentAttrCallback : Callback String :=
  fun _ session _ response =>
    Except.ok
      ({ session with attributes :=
          { string := some (AttrMap.insert
              (match session.attributes.string with
               | none => AttrMap.empty String
               | some m => m) "myNewAttr" "Set123") } }, response)

/-- A handler whose intent callback stores `myNewAttr = "Set123"`. -/
def attrHandler : RequestHandler String :=
  { onSessionStarted := passCallback, onLaunch := passCallback
    onIntent := intentAttrCallback, onSessionEnded := passCallback }

/-- The strict fixture configuration with the attribute-writing handler. -/
def attrAlexa : Alexa String := { strictAlexa with requestHandler := attrHandler }

/-- The prepared fixture session: attributes map primed with the empty map. -/
def preparedSampleSession : Session String := prepareSessionAttributes sampleSession

/-- The attribute map after the intent callback ran on the fixture. -/
def sampleAttrMap : AttrMap String :=
  AttrMap.insert (AttrMap.empty String) "myNewAttr" "Set123"

/-- The fixture session after the intent callback stored its attribute. -/
def mutatedSampleSession : Session String :=
  { preparedSampleSession with attributes := { string := some sampleAttrMap } }

/-- Witness for C6 at a concrete input: an intent callback sets
`myNewAttr = "Set123"` and every pair of the resulting map (that pair included)
appears in the returned envelope's session attributes. -/
theorem claim_C6_witness :
    ∃ re, ProcessRequest attrAlexa 150 sampleParse 1000 (some sampleEnv) = Except.ok re
      ∧ ∀ k v, sampleAttrMap k = some v → re.sessionAttributes k = some v :=
  claim_C6 attrAlexa 150 sampleParse 1000 sampleEnv preparedSampleSession mutatedSampleSession
    defaultResponse defaultResponse sampleAttrMap ⟨Or.inr rfl, Or.inr rfl⟩ rfl rfl rfl

/-- The callback `cb` always succeeds and leaves the "should end session" flag
of the response unchanged. -/
def OkPreservingEnd {V : Type} (cb : Callback V) : Prop :=
  ∀ request session context response, ∃ s2 r2,
    cb request session context response = Except.ok (s2, r2)
    ∧ r2.shouldSessionEnd = response.shouldSessionEnd

/-- Helper: under callbacks that succeed and preserve the end-session flag, the
type dispatch succeeds and preserves the flag (the unrecognized-type branch
changes nothing at all). -/
theorem dispatchRequestType_preserves {V : Type} (alexa : Alexa V) (request : Request)
    (s1 : Session V) (context : Option Context) (r1 : Response)
    (h2 : OkPreservingEnd alexa.requestHandler.onLaunch)
    (h3 : OkPreservingEnd alexa.requestHandler.onIntent)
    (h4 : OkPreservingEnd alexa.requestHandler.onSessionEnded) :
    ∃ s2 r2, dispatchRequestType alexa request s1 context r1 = Except.ok (s2, r2)
      ∧ r2.shouldSessionEnd = r1.shouldSessionEnd := by
  unfold dispatchRequestType
  by_cases hL : request.type = launchRequestName
  · simp only [hL, if_true]
    exact h2 request s1 context r1
  · by_cases hI : request.type = intentRequestName
    · simp only [hL, hI, if_false, if_true]
      exact h3 request s1 context r1
    · by_cases hE : request.type = sessionEndedRequestName
      · simp only [hL, hI, hE, if_false, if_true]
        exact h4 request s1 context r1
      · simp only [hL, hI, hE, if_false]
        exact ⟨s1, r1, rfl, rfl⟩

/-- Claim C7: for every request whose configured application ID is non-empty
and equal to the request's application ID and whose timestamp parses within
tolerance, ProcessRequest succeeds (callbacks permitting) with a response
envelope whose version is "1.0" and whose response keeps the default
"should end session" value `true` when no callback changed it; and the session
attribute map handed to every callback is the prepared one, never nil. -/
theorem claim_C7 {V : Type} (alexa : Alexa V) (tol : Int) (parse : String → Option Int)
    (now : Int) (env : RequestEnvelope V) (t : Int)
    (happ : alexa.applicationID ≠ "")
    (hmatch : alexa.applicationID = env.session.application.applicationID)
    (hts : parse env.request.timestamp = some t)
    (htol : |now - t| ≤ tol)
    (h1 : OkPreservingEnd alexa.requestHandler.onSessionStarted)
    (h2 : OkPreservingEnd alexa.requestHandler.onLaunch)
    (h3 : OkPreservingEnd alexa.requestHandler.onIntent)
    (h4 : OkPreservingEnd alexa.requestHandler.onSessionEnded) :
    (prepareSessionAttributes env.session).attributes.string ≠ none
    ∧ ∃ re, ProcessRequest alexa tol parse now (some env) = Except.ok re
        ∧ re.version = "1.0"
        ∧ re.response.shouldSessionEnd = true := by
  have hpass : ChecksPass alexa tol parse now env := by
    constructor
    · right
      simp only [verifyApplicationID]
      rw [← hmatch]
      simp [happ]
    · right
      simp only [verifyTimestamp, hts]
      simp [not_lt.mpr htol]
  have hchar := processRequest_of_checksPass alexa tol parse now env hpass
  constructor
  · cases h : env.session.attributes.string <;> simp [prepareSessionAttributes, h]
  · have hstarted : ∃ s1 r1,
        runSessionStarted alexa env.request (prepareSessionAttributes env.session) env.context
          defaultResponse = Except.ok (s1, r1)
        ∧ r1.shouldSessionEnd = true := by
      unfold runSessionStarted
      cases hn : (prepareSessionAttributes env.session).new
      · exact ⟨prepareSessionAttributes env.session, defaultResponse, by simp [hn], rfl⟩
      · simp only [if_true]
        obtain ⟨s1, r1, hcb, hend⟩ :=
          h1 env.request (prepareSessionAttributes env.session) env.context defaultResponse
        exact ⟨s1, r1, by simp [hcb], hend⟩
    obtain ⟨s1, r1, hstart, hend1⟩ := hstarted
    obtain ⟨s2, r2, hdisp, hend2⟩ :=
      dispatchRequestType_preserves alexa env.request s1 env.context r1 h2 h3 h4
    rw [hchar, hstart]
    dsimp only
    rw [hdisp]
    exact ⟨_, rfl, rfl, hend2.trans hend1⟩

/-- Witness for C7 at a concrete input: the fixture configuration and envelope
with do-nothing callbacks; dispatch succeeds, the version is "1.0", the
end-session default survives, and the prepared attribute map is non-nil. -/
theorem claim_C7_witness :
    (prepareSessionAttributes sampleEnv.session).attributes.string ≠ none
    ∧ ∃ re, ProcessRequest strictAlexa 150 sampleParse 1000 (some sampleEnv) = Except.ok re
        ∧ re.version = "1.0"
        ∧ re.response.shouldSessionEnd = true :=
  claim_C7 strictAlexa 150 sampleParse 1000 sampleEnv 1000 (by decide) rfl rfl (by decide)
    (fun req s c r => ⟨s, r, rfl, rfl⟩) (fun req s c r => ⟨s, r, rfl, rfl⟩)
    (fun req s c r => ⟨s, r, rfl, rfl⟩) (fun req s c r => ⟨s, r, rfl, rfl⟩)

/-- Claim C10: within one ProcessRequest call, for every recognized request
type (launch, intent or session-ended), the very response mutated by the
session-started callback (modelled as an arbitrary transformation `f` of the
prepared default response) is the one handed to the type-dispatched callback
(an arbitrary transformation `g`, whichever of the three is selected), and the
returned envelope carries `g (f defaultResponse)` — with `g` the identity, the
session-started mutation survives into the returned envelope unchanged. -/
theorem claim_C10 {V : Type} (alexa : Alexa V) (tol : Int) (parse : String → Option Int)
    (now : Int) (env : RequestEnvelope V) (f g : Response → Response)
    (hpass : ChecksPass alexa tol parse now env)
    (hnew : env.session.new = true)
    (hrec : env.request.type = launchRequestName ∨ env.request.type = intentRequestName
            ∨ env.request.type = sessionEndedRequestName)
    (hstart : alexa.requestHandler.onSessionStarted
        = fun _ session _ response => Except.ok (session, f response))
    (hlaunch : alexa.requestHandler.onLaunch
        = fun _ session _ response => Except.ok (session, g response))
    (hintent : alexa.requestHandler.onIntent
        = fun _ session _ response => Except.ok (session, g response))
    (hended : alexa.requestHandler.onSessionEnded
        = fun _ session _ response => Except.ok (session, g response)) :
    ∃ re, ProcessRequest alexa tol parse now (some env) = Except.ok re
      ∧ re.response = g (f defaultResponse) := by
  have hchar := processRequest_of_checksPass alexa tol parse now env hpass
  rw [hchar]
  rcases hrec with htype | htype | htype
  · simp only [runSessionStarted, dispatchRequestType, prepareSessionAttributes_new,
      hnew, htype, hstart, hlaunch, if_true]
    exact ⟨_, rfl, rfl⟩
  · have hL : ¬(intentRequestName = launchRequestName) := by decide
    simp only [runSessionStarted, dispatchRequestType, prepareSessionAttributes_new,
      hnew, htype, hL, hstart, hintent, if_true, if_false]
    exact ⟨_, rfl, rfl⟩
  · have hL : ¬(sessionEndedRequestName = launchRequestName) := by decide
    have hI : ¬(sessionEndedRequestName = intentRequestName) := by decide
    simp only [runSessionStarted, dispatchRequestType, prepareSessionAttributes_new,
      hnew, htype, hL, hI, hstart, hended, if_true, if_false]
    exact ⟨_, rfl, rfl⟩

/-- A handler whose session-started callback sets plain-text output speech and
whose launch callback leaves the response as it finds it. -/
def startMutHandler : RequestHandler String :=
  { onSessionStarted := fun _ session _ response =>
      Except.ok (session, response.SetOutputText "Hello")
    onLaunch := fun _ session _ response => Except.ok (session, response)
    onIntent := passCallback, onSessionEnded := passCallback }

/-- The strict fixture configuration with the start-mutating handler. -/
def startMutAlexa : Alexa String := { strictAlexa with requestHandler := startMutHandler }

/-- Witness for C10 at a concrete input: the session-started callback sets
output speech "Hello", the launch callback changes nothing, and the returned
envelope's response carries that speech. -/
theorem claim_C10_witness :
    ∃ re, ProcessRequest startMutAlexa 150 sampleParse 1000 (some launchEnv) = Except.ok re
      ∧ re.response = defaultResponse.SetOutputText "Hello" :=
  claim_C10 startMutAlexa 150 sampleParse 1000 launchEnv
    (fun response => response.SetOutputText "Hello") (fun response => response)
    ⟨Or.inr rfl, Or.inr rfl⟩ rfl (Or.inl rfl) rfl rfl rfl rfl

end AlexaSDK
